import Mathlib

/-!
Verification of the Jalin-Deploy continuous-deployment agent.

This file gives a shallow embedding of the two driver scripts
`deploy_watcher.py` and `deploy_agent.py` and proves the spec claims
about them.  Pure decision logic (change detection, revision commits,
the overlay merge, the build gate) is translated into executable Lean
functions; external effects (HTTP polls, subprocesses, the filesystem)
appear as explicit inputs (observed revisions, stage outcomes, abstract
file-system states) so that each control path of the source maps to a
case of the Lean function.  Definitions come first, theorems follow.
-/

namespace JalinDeploy

/-! ## Watcher state (deploy_watcher.py)

`DeployWatcher.__init__` (lines 37-38) initialises the two tracked
revisions `fe_last_sha` and `be_last_sha` to `None`; a revision is an
opaque string, absence is `None`, hence `Option String` here. -/

/-- The watcher's mutable revision-tracker state: the last-seen commit
sha of each of the two tracked repositories (`None` when unknown). -/
structure WatcherState where
  fe_last_sha : Option String
  be_last_sha : Option String
  deriving DecidableEq

/-- Python truthiness of an optional string: `None` and the empty
string are falsy, every other string is truthy.  This is the test
applied by `fe_sha and ...` (line 80-81) and `if fe_sha:` (line 212). -/
def truthy : Option String → Bool
  | none => false
  | some s => !s.isEmpty

/-- The change predicate used in `check_for_updates` (lines 80-81):
`fe_updated = fe_sha and fe_sha != self.fe_last_sha`.  True iff the
newly polled revision is truthy and differs from the stored one
(a stored `None` differs from every concrete string, as in Python
`"abc" != None`). -/
def hasChanged (stored newRev : Option String) : Bool :=
  truthy newRev && !(newRev == stored)

/-- `check_for_updates` (lines 71-95): polls both repositories and
returns `(has_updates, fe_sha, be_sha)`.  The polled shas are inputs
here (the HTTP calls are external); the exception path of the source
returns `(False, None, None)`, which coincides with this function at
`fe_sha = be_sha = none`. -/
def check_for_updates (st : WatcherState) (fe_sha be_sha : Option String) :
    Bool × Option String × Option String :=
  (hasChanged st.fe_last_sha fe_sha || hasChanged st.be_last_sha be_sha, fe_sha, be_sha)

/-- Whether a poll result triggers a deploy cycle (the first component
of `check_for_updates`). -/
def has_updates (st : WatcherState) (fe_sha be_sha : Option String) : Bool :=
  (check_for_updates st fe_sha be_sha).1

/-- One tracked field after a successful cycle (`run`, lines 212-215):
`if fe_sha: self.fe_last_sha = fe_sha` — the observed sha replaces the
stored one only when it is truthy, otherwise the stored value is kept. -/
def commitField (old newRev : Option String) : Option String :=
  if truthy newRev then newRev else old

/-- The revision-tracker commit performed after a successful redeploy
(`run`, lines 211-215): both fields are updated from the freshly
observed shas. -/
def commitRevisions (st : WatcherState) (fe_sha be_sha : Option String) : WatcherState :=
  ⟨commitField st.fe_last_sha fe_sha, commitField st.be_last_sha be_sha⟩

/-- The state transformation of one iteration of the main loop
(`run`, lines 207-217): if the poll reports updates and
`trigger_redeploy()` returns true the new shas are committed;
on a failed redeploy, or when no update is detected, the state is
left untouched. -/
def loopIter (st : WatcherState) (fe_sha be_sha : Option String)
    (redeployOk : Bool) : WatcherState :=
  if has_updates st fe_sha be_sha then
    if redeployOk then commitRevisions st fe_sha be_sha else st
  else st

/-! ## The deployment pipeline outcome (deploy_agent.py / trigger_redeploy)

`DeploymentAgent.run` (lines 574-614) runs the five stages in order and
short-circuits on the first failure; `DeployWatcher.trigger_redeploy`
(lines 97-176) succeeds only when the agent subprocess exits 0, a
compose command is found, and the rebuild succeeds. -/

/-- Outcome of `clone_repository` together with which filesystem action
it performed (merge into an existing target vs. rename into a new one). -/
structure FetchResult where
  success : Bool
  mergeCalled : Bool
  renameCalled : Bool
  deriving DecidableEq

/-- Outcome of `DeploymentAgent.run`: overall success and whether the
build stage (step 4) was ever reached. -/
structure AgentRun where
  success : Bool
  buildStageReached : Bool
  deriving DecidableEq

/-- `DeploymentAgent.run` (lines 574-614): clone frontend, clone
backend, setup backend, setup frontend, build images, deploy — each
stage's failure returns `False` at once, skipping all later stages. -/
def agent_run (cloneFE cloneBE : FetchResult)
    (setupBackendOk setupFrontendOk buildOk deployOk : Bool) : AgentRun :=
  if !cloneFE.success then ⟨false, false⟩
  else if !cloneBE.success then ⟨false, false⟩
  else if !setupBackendOk then ⟨false, false⟩
  else if !setupFrontendOk then ⟨false, false⟩
  else if !buildOk then ⟨false, true⟩
  else ⟨deployOk, true⟩

/-- `DeployWatcher.trigger_redeploy` (lines 97-176): true only when the
agent subprocess exited 0 (line 114), a compose command was found
(lines 124-157), and the watcher's own rebuild returned 0 (line 159). -/
def trigger_redeploy (agentOk composeFound rebuildOk : Bool) : Bool :=
  agentOk && composeFound && rebuildOk

/-! ## The overlay merge (deploy_agent.py, `_merge_directories`, lines 86-139)

The filesystem below a directory is modelled as a map from relative
paths (lists of path components, the last one being the filename) to
file contents.  `os.walk` enumerates every file of the source tree
exactly once; the merge copies it onto the target path unless its
basename is in the preserve set and the target already has a file
there.  `shutil.copy2` (including its permission-fix retry, which
re-attempts the very same copy) writes the source contents at the
target path; directory creation (`mkdir`) only ever adds entries. -/

/-- A relative path, as a list of components; the last component is the
filename yielded by `os.walk`. -/
abbrev FPath := List String

/-- The files of a directory tree: contents at each path, `none` where
no file exists. -/
def FS := FPath → Option String

/-- Writing one file (`shutil.copy2`): the target path now holds the
copied contents, every other path is untouched. -/
def setFile (fs : FS) (p : FPath) (c : String) : FS :=
  fun q => if q = p then some c else fs q

/-- The basename of a path (the `file` variable of the walk loop). -/
def fileName (p : FPath) : String := p.getLastD ""

/-- The protected filenames of `_merge_directories` (line 94). -/
def preserve_files : List String := [".env.local", ".env.local.example", "Dockerfile"]

/-- One step of the walk loop (lines 112-137): skip the copy when the
basename is protected and the file already exists in the (current)
target, otherwise copy the source file over. -/
def mergeStep (target : FS) (pc : FPath × String) : FS :=
  if fileName pc.1 ∈ preserve_files ∧ (target pc.1).isSome = true then target
  else setFile target pc.1 pc.2

/-- `_merge_directories` (lines 86-139): fold the walk over all source
files, updating the target tree in place. -/
def merge_directories (source : List (FPath × String)) (target : FS) : FS :=
  source.foldl mergeStep target

/-! ## Fetch of one repository (deploy_agent.py, `clone_repository`, lines 155-280)

After downloading the archive the function extracts it and inspects
`zip_ref.namelist()`.  An empty member list raises a `ValueError`
(lines 226-228) which the outer handler turns into `False`; a missing
extracted root folder likewise raises (lines 233-234).  Otherwise the
extracted root is merged into an existing target (line 241) or renamed
into a fresh one (line 247), and the result is the verification check
(lines 260-265).  The zip member list, the existence of the extracted
root, the prior existence of the target, and the verification outcome
are the inputs of the model. -/

def clone_repository_zip (zipMembers : List String)
    (extractedRootExists targetExists verifyOk : Bool) : FetchResult :=
  if zipMembers.isEmpty then ⟨false, false, false⟩
  else if !extractedRootExists then ⟨false, false, false⟩
  else if targetExists then ⟨verifyOk, true, false⟩
  else ⟨verifyOk, false, true⟩

/-! ## The build gate (deploy_agent.py, `verify_repo_cloned` lines 54-84
and `build_docker_images` lines 431-481) -/

/-- Abstract state of a filesystem node as tested by
`verify_repo_cloned`: missing, a non-directory, or a directory with a
list of entry names. -/
inductive FsNode where
  | absent
  | file
  | dir (entries : List String)
  deriving DecidableEq

/-- `verify_repo_cloned` (lines 54-84): the target must exist, be a
directory, be non-empty, and contain every required file. -/
def verify_repo_cloned (node : FsNode) (required_files : List String) : Bool :=
  match node with
  | .absent => false
  | .file => false
  | .dir entries => !entries.isEmpty && required_files.all (fun f => entries.contains f)

/-- The inputs of `build_docker_images`: presence of the compose
manifest, the two working trees, and the outcome of the compose build
subprocess were it run. -/
structure BuildEnv where
  composeFileExists : Bool
  frontendDir : FsNode
  backendDir : FsNode
  buildCmdOk : Bool
  deriving DecidableEq

/-- Result of `build_docker_images`, recording whether the compose
build subprocess was ever invoked. -/
structure BuildResult where
  success : Bool
  buildInvoked : Bool
  deriving DecidableEq

/-- `build_docker_images` (lines 431-481): fail without building when
docker-compose.yml is missing (lines 435-438), when the frontend tree
fails verification with no required files (lines 442-444), or when the
backend tree fails verification with requirements.txt required
(lines 446-448); only then run the compose build, whose exit status is
the result. -/
def build_docker_images (env : BuildEnv) : BuildResult :=
  if !env.composeFileExists then ⟨false, false⟩
  else if !(verify_repo_cloned env.frontendDir []) then ⟨false, false⟩
  else if !(verify_repo_cloned env.backendDir ["requirements.txt"]) then ⟨false, false⟩
  else ⟨env.buildCmdOk, true⟩

/-! ## The command surface of a redeploy

`DeploymentAgent.deploy` (lines 483-572) and the rebuild step of
`DeployWatcher.trigger_redeploy` (lines 119-153).  Each external
command is recorded as its argv together with whether a nonzero exit
aborts the caller (`check=True`).  `useV2` selects between the two
compose CLI forms probed at lines 491-500 / 119-134. -/

/-- One subprocess invocation: argv and whether failure raises. -/
structure Cmd where
  argv : List String
  checkFail : Bool
  deriving DecidableEq

/-- The compose executable prefix chosen by the probe. -/
def compose_base (useV2 : Bool) : List String :=
  if useV2 then ["docker", "compose"] else ["docker-compose"]

/-- The project-name flag matching the chosen compose form. -/
def project_flag (useV2 : Bool) : String :=
  if useV2 then "-p" else "--project-name"

/-- The bring-up command of `DeploymentAgent.deploy` (line 537). -/
def deploy_up_cmd (useV2 : Bool) : List String :=
  compose_base useV2 ++
    [project_flag useV2, "jalindeploy", "up", "-d", "--no-deps", "--build", "frontend", "backend"]

/-- The rebuild command of `DeployWatcher.trigger_redeploy` (line 143). -/
def watcher_rebuild_cmd (useV2 : Bool) : List String :=
  compose_base useV2 ++
    [project_flag useV2, "jalindeploy", "up", "-d", "--build", "--force-recreate", "frontend", "backend"]

/-- The full command sequence of `DeploymentAgent.deploy`
(lines 508-566): stop and force-remove each managed container with
`check=False` (lines 512-524), bring the two services up (line 537,
`check=True`), then best-effort image cleanup (lines 550-564). -/
def deploy_commands (useV2 : Bool) : List Cmd :=
  [⟨["docker", "stop", "jalin-frontend"], false⟩,
   ⟨["docker", "rm", "-f", "jalin-frontend"], false⟩,
   ⟨["docker", "stop", "jalin-backend"], false⟩,
   ⟨["docker", "rm", "-f", "jalin-backend"], false⟩,
   ⟨deploy_up_cmd useV2, true⟩,
   ⟨["docker", "image", "prune", "-f", "--filter", "dangling=true"], false⟩,
   ⟨["docker", "rmi", "-f", "jalindeploy-frontend"], false⟩,
   ⟨["docker", "image", "prune", "-f", "--filter", "dangling=true"], false⟩,
   ⟨["docker", "rmi", "-f", "jalindeploy-backend"], false⟩]

/-- A `docker stop` or `docker rm` command is acceptable iff it names
one of the two managed containers and tolerates failure. -/
def stop_rm_ok (c : Cmd) : Bool :=
  if c.argv.take 2 == ["docker", "stop"] || c.argv.take 3 == ["docker", "rm", "-f"] then
    (c.argv.getLast? == some "jalin-frontend" || c.argv.getLast? == some "jalin-backend")
      && !c.checkFail
  else true

/-! ## Termination behaviour of the watch loop (deploy_watcher.py, `run`, lines 202-226)

The `try` block (lines 204-218) covers `check_for_updates`, the
redeploy and the revision commit; `except KeyboardInterrupt` breaks
out of the loop (clean process exit, status 0) and `except Exception`
logs and continues.  The `time.sleep(self.poll_interval)` at line 226
sits outside the `try`, so an interrupt delivered while sleeping
propagates out of `run` and `main` uncaught, terminating the process
abnormally with a traceback and a nonzero status. -/

/-- The externally visible event of one loop iteration. -/
inductive LoopEvent where
  /-- The body ran to completion with these poll results and, if a
  cycle was triggered, this redeploy outcome. -/
  | body (fe_sha be_sha : Option String) (redeployOk : Bool)
  /-- An exception escaped the body into `except Exception`. -/
  | bodyError
  /-- A `KeyboardInterrupt` was raised inside the `try` body. -/
  | bodyInterrupt
  /-- A `KeyboardInterrupt` was raised during `time.sleep`. -/
  | sleepInterrupt
  deriving DecidableEq

/-- What one iteration leads to. -/
inductive LoopOutcome where
  /-- The loop proceeds to the next interval with this state. -/
  | next (st : WatcherState)
  /-- `break`: `run` and `main` return, the process exits with 0. -/
  | exitClean
  /-- The exception propagates uncaught: the process terminates with a
  traceback and a nonzero status. -/
  | exitAbnormal
  deriving DecidableEq

/-- One iteration of the `while True` loop (lines 203-226). -/
def run_iteration (st : WatcherState) (e : LoopEvent) : LoopOutcome :=
  match e with
  | .body fe be r => .next (loopIter st fe be r)
  | .bodyError => .next st
  | .bodyInterrupt => .exitClean
  | .sleepInterrupt => .exitAbnormal

/-! ## Theorems -/

/-- C1: tracked revision state is committed atomically and only on full
success.  For any cycle, if any pipeline stage (either clone, either
setup, build, deploy, the compose probe or the watcher rebuild) fails
then `trigger_redeploy` is false and the loop iteration leaves the
stored state exactly as it was; when the whole pipeline succeeds and an
update was detected, the state after the iteration is exactly the
single atomic commit of the freshly observed revisions. -/
theorem revision_commit_on_success_only (st : WatcherState) (fe be : Option String)
    (cloneFE cloneBE : FetchResult) (pBE pFE bOk dOk composeFound rebuildOk : Bool) :
    (trigger_redeploy (agent_run cloneFE cloneBE pBE pFE bOk dOk).success composeFound rebuildOk = false →
      loopIter st fe be (trigger_redeploy (agent_run cloneFE cloneBE pBE pFE bOk dOk).success composeFound rebuildOk) = st)
    ∧ ((cloneFE.success = false ∨ cloneBE.success = false ∨ pBE = false ∨ pFE = false ∨
        bOk = false ∨ dOk = false ∨ composeFound = false ∨ rebuildOk = false) →
      loopIter st fe be (trigger_redeploy (agent_run cloneFE cloneBE pBE pFE bOk dOk).success composeFound rebuildOk) = st)
    ∧ (trigger_redeploy (agent_run cloneFE cloneBE pBE pFE bOk dOk).success composeFound rebuildOk = true →
        has_updates st fe be = true →
      loopIter st fe be (trigger_redeploy (agent_run cloneFE cloneBE pBE pFE bOk dOk).success composeFound rebuildOk) = commitRevisions st fe be) := by
  refine ⟨fun h => ?_, fun h => ?_, fun h hu => ?_⟩
  · rw [h]; unfold loopIter; split <;> rfl
  · have h0 : trigger_redeploy (agent_run cloneFE cloneBE pBE pFE bOk dOk).success composeFound rebuildOk = false := by
      unfold trigger_redeploy agent_run
      rcases h with h | h | h | h | h | h | h | h <;>
        simp [h] <;> (repeat' split) <;> simp_all
    rw [h0]; unfold loopIter; split <;> rfl
  · rw [h]; unfold loopIter; rw [hu]; rfl

/-- Witness for C1 at a concrete failing cycle: a build-stage failure
leaves a concretely given state untouched. -/
theorem revision_commit_on_success_only_witness :
    loopIter ⟨some "a1", some "b1"⟩ (some "a2") (some "b1")
      (trigger_redeploy (agent_run ⟨true, true, false⟩ ⟨true, true, false⟩ true true false true).success true true)
      = ⟨some "a1", some "b1"⟩ :=
  (revision_commit_on_success_only ⟨some "a1", some "b1"⟩ (some "a2") (some "b1")
    ⟨true, true, false⟩ ⟨true, true, false⟩ true true false true true true).2.1
    (Or.inr (Or.inr (Or.inr (Or.inr (Or.inl rfl)))))

/-- C4: the change predicate.  `hasChanged stored new` is true iff the
new revision is truthy (present and non-empty) and differs from the
stored value; an unknown (`none`) stored value compares as changed
against any concrete non-empty revision; and after a loop iteration
whose redeploy succeeded, a second poll returning the identical
revisions for both repositories reports no update, hence triggers no
deploy cycle. -/
theorem hasChanged_spec :
    (∀ stored newRev : Option String,
      hasChanged stored newRev = true ↔ (truthy newRev = true ∧ newRev ≠ stored))
    ∧ (∀ s : String, s ≠ "" → hasChanged none (some s) = true)
    ∧ (∀ (st : WatcherState) (fe be : Option String),
      has_updates (loopIter st fe be true) fe be = false) := by
  refine ⟨fun stored newRev => ?_, fun s hs => ?_, fun st fe be => ?_⟩
  · unfold hasChanged
    rw [Bool.and_eq_true, Bool.not_eq_true', beq_eq_false_iff_ne]
  · simp only [hasChanged, truthy, Bool.and_eq_true, Bool.not_eq_true', beq_eq_false_iff_ne]
    refine ⟨?_, by simp⟩
    rw [Bool.eq_false_iff]
    exact fun h => hs ((String.isEmpty_iff s).mp h)
  · unfold loopIter
    by_cases hu : has_updates st fe be = true
    · rw [if_pos hu, if_pos rfl]
      unfold has_updates check_for_updates commitRevisions commitField hasChanged
      cases fe <;> cases be <;> simp [truthy] <;>
        split <;> simp_all [truthy]
    · rw [if_neg hu]
      exact Bool.eq_false_iff.mpr hu

/-- Witness for C4: an unknown stored value compares as changed against
the concrete revision string abc123. -/
theorem hasChanged_spec_witness : hasChanged none (some "abc123") = true :=
  hasChanged_spec.2.1 "abc123" (by decide)

/-- C5: on pipeline success both tracked revisions advance to the
freshly observed values even when only one repository changed.  In
general, whenever an update is detected and both polled shas are
truthy, a successful iteration ends in exactly the polled pair; in the
spec's scenario (frontend unknown, poll returns abc123 / the already
recorded def456) a cycle is triggered and the state becomes
(abc123, def456). -/
theorem both_revisions_advance_on_success :
    (∀ (st : WatcherState) (fe be : Option String),
      has_updates st fe be = true → truthy fe = true → truthy be = true →
      loopIter st fe be true = ⟨fe, be⟩)
    ∧ has_updates ⟨none, some "def456"⟩ (some "abc123") (some "def456") = true
    ∧ loopIter ⟨none, some "def456"⟩ (some "abc123") (some "def456") true
        = ⟨some "abc123", some "def456"⟩ := by
  refine ⟨fun st fe be hu hf hb => ?_, by decide, by decide⟩
  unfold loopIter
  rw [if_pos hu, if_pos rfl]
  unfold commitRevisions commitField
  rw [if_pos hf, if_pos hb]

/-- Witness for C5 at the spec's concrete scenario: applying the
general statement to the scenario state reproduces its outcome. -/
theorem both_revisions_advance_on_success_witness :
    loopIter ⟨none, some "def456"⟩ (some "abc123") (some "def456") true
      = ⟨some "abc123", some "def456"⟩ :=
  both_revisions_advance_on_success.1 ⟨none, some "def456"⟩
    (some "abc123") (some "def456") (by decide) (by decide) (by decide)

/-- C10: a tracked revision never reverts to unknown during a run.
Once a field holds a concrete value it stays concrete after any loop
iteration, whatever the poll returned and whether the redeploy ran or
succeeded; moreover in a cycle whose poll returned no revision for one
repository, that repository's stored revision is kept verbatim even
when the redeploy succeeds. -/
theorem tracked_revision_never_reverts (st : WatcherState) (fe be : Option String) (r : Bool) :
    (st.fe_last_sha.isSome = true → (loopIter st fe be r).fe_last_sha.isSome = true)
    ∧ (st.be_last_sha.isSome = true → (loopIter st fe be r).be_last_sha.isSome = true)
    ∧ (loopIter st none be r).fe_last_sha = st.fe_last_sha
    ∧ (loopIter st fe none r).be_last_sha = st.be_last_sha := by
  unfold loopIter commitRevisions commitField
  refine ⟨fun h => ?_, fun h => ?_, ?_, ?_⟩ <;>
    (repeat' split) <;> simp_all <;> cases fe <;> cases be <;> simp_all [truthy]

/-- Witness for C10: a concrete state with both revisions known keeps
a concrete frontend revision across an iteration whose frontend poll
failed but whose redeploy succeeded. -/
theorem tracked_revision_never_reverts_witness :
    (loopIter ⟨some "a1", some "b1"⟩ none (some "b2") true).fe_last_sha.isSome = true :=
  (tracked_revision_never_reverts ⟨some "a1", some "b1"⟩ none (some "b2") true).1 (by decide)

/-- A merge step never changes a protected file that the target
already holds. -/
theorem mergeStep_keeps_protected (t : FS) (x : FPath × String) (p : FPath) (c : String)
    (hn : fileName p ∈ preserve_files) (hc : t p = some c) :
    mergeStep t x p = some c := by
  unfold mergeStep
  by_cases hx : x.1 = p
  · rw [if_pos ⟨hx ▸ hn, by rw [hx, hc]; rfl⟩]
    exact hc
  · split
    · exact hc
    · unfold setFile
      rw [if_neg (fun h => hx h.symm)]
      exact hc

/-- A merge step never erases any existing file. -/
theorem mergeStep_keeps_existing (t : FS) (x : FPath × String) (p : FPath)
    (hc : (t p).isSome = true) : (mergeStep t x p).isSome = true := by
  unfold mergeStep
  split
  · exact hc
  · unfold setFile
    by_cases hx : p = x.1
    · rw [if_pos hx]; rfl
    · rw [if_neg hx]; exact hc

/-- A merge step leaves every path other than the copied one alone. -/
theorem mergeStep_frame (t : FS) (x : FPath × String) (p : FPath)
    (hx : p ≠ x.1) : mergeStep t x p = t p := by
  unfold mergeStep
  split
  · rfl
  · unfold setFile
    rw [if_neg hx]

/-- C2: locally-owned filenames survive the merge.  For every source
tree, target tree, and path whose basename is in the preserve set
(.env.local, .env.local.example, Dockerfile): if the target already
holds contents `c` at that path, then after `_merge_directories` the
target still holds exactly `c` there — even when the fetched source
contains a file at the same path. -/
theorem merge_preserves_local_files (source : List (FPath × String)) (target : FS)
    (p : FPath) (c : String)
    (hn : fileName p ∈ preserve_files) (hc : target p = some c) :
    merge_directories source target p = some c := by
  unfold merge_directories
  induction source generalizing target with
  | nil => exact hc
  | cons x xs ih =>
    rw [List.foldl_cons]
    exact ih _ (mergeStep_keeps_protected target x p c hn hc)

/-- Witness for C2: a merge whose source carries a new `.env.local`
leaves the pre-existing local one untouched. -/
theorem merge_preserves_local_files_witness :
    merge_directories [([".env.local"], "upstream"), (["app.py"], "code")]
      (setFile (fun _ => none) [".env.local"] "local") [".env.local"] = some "local" :=
  merge_preserves_local_files _ _ _ _ (by decide) (by decide)

/-- C3: the merge is additive, never subtractive.  Every file that
exists in the target before the merge still exists afterwards, and a
target path with no corresponding path in the fetched source is left
with exactly its old contents — no target-only file or directory entry
is deleted. -/
theorem merge_is_additive (source : List (FPath × String)) (target : FS) (p : FPath) :
    ((target p).isSome = true → (merge_directories source target p).isSome = true)
    ∧ (p ∉ source.map Prod.fst → merge_directories source target p = target p) := by
  unfold merge_directories
  constructor
  · intro hc
    induction source generalizing target with
    | nil => exact hc
    | cons x xs ih =>
      rw [List.foldl_cons]
      exact ih _ (mergeStep_keeps_existing target x p hc)
  · induction source generalizing target with
    | nil => intro _; rfl
    | cons x xs ih =>
      intro hp
      rw [List.map_cons, List.mem_cons] at hp
      push_neg at hp
      rw [List.foldl_cons, ih (mergeStep target x) hp.2,
        mergeStep_frame target x p hp.1]

/-- Witness for C3: a target-only file survives a merge verbatim. -/
theorem merge_is_additive_witness :
    merge_directories [(["app.py"], "code")]
      (setFile (fun _ => none) ["local.txt"] "mine") ["local.txt"]
      = setFile (fun _ => none) ["local.txt"] "mine" ["local.txt"] :=
  (merge_is_additive [(["app.py"], "code")]
    (setFile (fun _ => none) ["local.txt"] "mine") ["local.txt"]).2 (by decide)

/-- Counterexample to C9 as stated: an archive that extracts to a root
directory containing zero entries does not leave the filesystem
untouched.  With a single zip member that is the bare root directory
and a target that does not yet exist, the code passes the emptiness
check (the member list is non-empty), renames the empty extracted root
into place (line 247), and only then fails verification (an empty
directory verifies false) — so the fetch reports failure, yet a rename
into a new target did occur, contradicting the claim. -/
theorem empty_root_archive_renames :
    (clone_repository_zip ["jalin-root/"] true false
      (verify_repo_cloned (FsNode.dir []) [])).renameCalled = true
    ∧ (clone_repository_zip ["jalin-root/"] true false
      (verify_repo_cloned (FsNode.dir []) [])).success = false := by
  exact ⟨rfl, rfl⟩

/-- C9 (amended): an archive with no members at all aborts the fetch
before any filesystem action.  For every combination of the remaining
circumstances, a fetch whose zip member list is empty reports failure
with neither a merge nor a rename performed (the `ValueError` of
lines 227-228 fires before either action), and a deploy cycle whose
backend fetch hit this case never reaches the build stage, whatever
the frontend fetch and the setup stages did. -/
theorem empty_archive_aborts_before_build
    (e t v : Bool) (feRes : FetchResult) (pBE pFE bOk dOk : Bool) :
    clone_repository_zip [] e t v = ⟨false, false, false⟩
    ∧ (agent_run feRes (clone_repository_zip [] e t v) pBE pFE bOk dOk).buildStageReached = false
    ∧ (agent_run feRes (clone_repository_zip [] e t v) pBE pFE bOk dOk).success = false := by
  refine ⟨rfl, ?_, ?_⟩ <;>
    · unfold agent_run clone_repository_zip
      cases h : feRes.success <;> simp [h]

/-- C6: the build is gated.  If the orchestration manifest is missing,
or either working tree fails its verification check (exists, is a
non-empty directory, and for the backend contains requirements.txt),
`build_docker_images` returns failure without invoking any build
command; when all three preconditions hold the build is invoked and
its exit status is the result. -/
theorem build_images_gated (env : BuildEnv) :
    (env.composeFileExists = false → build_docker_images env = ⟨false, false⟩)
    ∧ (verify_repo_cloned env.frontendDir [] = false → build_docker_images env = ⟨false, false⟩)
    ∧ (verify_repo_cloned env.backendDir ["requirements.txt"] = false →
        build_docker_images env = ⟨false, false⟩)
    ∧ (env.composeFileExists = true → verify_repo_cloned env.frontendDir [] = true →
        verify_repo_cloned env.backendDir ["requirements.txt"] = true →
        build_docker_images env = ⟨env.buildCmdOk, true⟩) := by
  unfold build_docker_images
  refine ⟨fun h => ?_, fun h => ?_, fun h => ?_, fun h1 h2 h3 => ?_⟩
  · simp [h]
  · by_cases hc : env.composeFileExists <;> simp [hc, h]
  · by_cases hc : env.composeFileExists <;>
      by_cases hf : verify_repo_cloned env.frontendDir [] <;> simp [hc, hf, h]
  · simp [h1, h2, h3]

/-- Witness for C6 at a concrete gate violation: with the manifest
missing, no build is invoked even though both trees verify. -/
theorem build_images_gated_witness :
    build_docker_images ⟨false, .dir ["src"], .dir ["requirements.txt"], true⟩
      = ⟨false, false⟩ :=
  (build_images_gated ⟨false, .dir ["src"], .dir ["requirements.txt"], true⟩).1 rfl

/-- Counterexample to C7 as stated: the claim requires every bring-up
command of a redeploy to pass a dependency-protection flag, but the
watcher's own rebuild command (trigger_redeploy, line 143) is an `up`
command that does not contain `--no-deps`. -/
theorem watcher_rebuild_lacks_no_deps :
    (watcher_rebuild_cmd true).contains "up" = true
    ∧ (watcher_rebuild_cmd true).contains "--no-deps" = false := by
  constructor <;> rfl

/-- C7 (amended): no redeploy command touches the agent's own service.
For either compose CLI form: every stop/remove command of
`DeploymentAgent.deploy` names only the two managed containers and
tolerates a missing container; no command of the deploy sequence or
the watcher rebuild mentions an agent container or service; the
agent's bring-up command names exactly the services frontend and
backend and passes `--no-deps`; the watcher's rebuild command also
names exactly frontend and backend but passes no `--no-deps` flag. -/
theorem redeploy_commands_spare_agent (useV2 : Bool) :
    (deploy_commands useV2).all stop_rm_ok = true
    ∧ (deploy_commands useV2).all
        (fun c => !c.argv.contains "agent" && !c.argv.contains "jalin-agent") = true
    ∧ (deploy_up_cmd useV2).contains "--no-deps" = true
    ∧ (deploy_up_cmd useV2).reverse.take 2 = ["backend", "frontend"]
    ∧ (watcher_rebuild_cmd useV2).reverse.take 2 = ["backend", "frontend"]
    ∧ (watcher_rebuild_cmd useV2).contains "--no-deps" = false
    ∧ (watcher_rebuild_cmd useV2).contains "agent" = false
    ∧ (watcher_rebuild_cmd useV2).contains "jalin-agent" = false := by
  cases useV2 <;> exact ⟨rfl, rfl, rfl, rfl, rfl, rfl, rfl, rfl⟩

/-- Counterexample to C8 as stated: an interrupt received during the
sleep phase does not terminate the process cleanly with exit code 0 —
the sleep lies outside the `try`, so the interrupt propagates uncaught
and the process exits abnormally. -/
theorem sleep_interrupt_not_clean :
    run_iteration ⟨none, none⟩ LoopEvent.sleepInterrupt ≠ LoopOutcome.exitClean
    ∧ run_iteration ⟨none, none⟩ LoopEvent.sleepInterrupt = LoopOutcome.exitAbnormal := by
  exact ⟨by decide, rfl⟩

/-- C8 (amended): the loop never terminates on an error.  Every
exception raised by the body of an iteration is caught and the loop
proceeds to the next interval with its state intact; the process exits
only on an interrupt; an interrupt during the body exits cleanly
(code 0), while an interrupt during the sleep phase terminates the
process abnormally (uncaught, nonzero status). -/
theorem loop_exits_only_on_interrupt (st : WatcherState) (e : LoopEvent) :
    ((run_iteration st e = LoopOutcome.exitClean ∨
      run_iteration st e = LoopOutcome.exitAbnormal) →
      (e = LoopEvent.bodyInterrupt ∨ e = LoopEvent.sleepInterrupt))
    ∧ run_iteration st LoopEvent.bodyError = LoopOutcome.next st
    ∧ run_iteration st LoopEvent.bodyInterrupt = LoopOutcome.exitClean
    ∧ run_iteration st LoopEvent.sleepInterrupt = LoopOutcome.exitAbnormal := by
  refine ⟨fun h => ?_, rfl, rfl, rfl⟩
  cases e with
  | body fe be r => rcases h with h | h <;> exact absurd h (by simp [run_iteration])
  | bodyError => rcases h with h | h <;> exact absurd h (by simp [run_iteration])
  | bodyInterrupt => exact Or.inl rfl
  | sleepInterrupt => exact Or.inr rfl

/-- Witness for C8 (amended): a body interrupt at a concrete state is
one of the two exiting events. -/
theorem loop_exits_only_on_interrupt_witness :
    LoopEvent.bodyInterrupt = LoopEvent.bodyInterrupt
    ∨ LoopEvent.bodyInterrupt = LoopEvent.sleepInterrupt :=
  (loop_exits_only_on_interrupt ⟨none, none⟩ LoopEvent.bodyInterrupt).1 (Or.inl rfl)

end JalinDeploy
